import Mathlib

/-!
Shallow embedding of `src/app/main.py` (class `BingAds`) from the
ms-ads-integration repository, together with theorems settling the claims
about its token handling, report-request construction, poll loop and
submit/poll/download/unzip/load pipeline.

External effects (HTTP responses, the token cache file, the zip archive, the
BigQuery load job) are modelled as explicit inputs; Python exceptions that a
function can let escape are modelled with `Except PyError`.
-/

namespace MsAds

/-- Python exceptions that can escape the functions modelled here. -/
inductive PyError where
  | keyError (key : String)
  | attributeError (msg : String)
  | valueError (msg : String)
deriving DecidableEq

/-- Truthiness of a Python value that is either a `str` (`some s`) or `None`
(`none`): `None` and the empty string are falsy. -/
def truthyStr : Option String → Bool
  | none => false
  | some s => s != ""

/-! ## Token state and cache file

`BingAds.__init__` sets `access_token = ""`, `refresh_token = ""`,
`expires_at = 0`.  `_load_tokens` may overwrite the token fields with values
read from the cache file (possibly `None` when a key is absent or null), so the
in-memory fields are modelled as `Option String`.  `expires_at` is a number;
it is modelled as `Int` (time arithmetic only ever compares and adds). -/

/-- In-memory token fields of the `BingAds` object. -/
structure TokenState where
  access_token : Option String
  refresh_token : Option String
  expires_at : Int
deriving DecidableEq

/-- The JSON object stored in the token cache file: each `dict.get` lookup can
yield a string, `None` (absent key or null), and `expires_at` a number or be
absent (`.get("expires_at", 0)` then yields 0). -/
structure TokenData where
  access_token : Option String
  refresh_token : Option String
  expires_at : Option Int
deriving DecidableEq

/-- Contents of the token cache file on disk. -/
inductive CacheFile where
  /-- the file does not exist (`FileNotFoundError` on open) -/
  | missing
  /-- the file exists but is not valid JSON (`json.JSONDecodeError`) -/
  | invalidJson
  /-- the file is valid JSON but not a JSON object (e.g. a list or a number);
  `token_data.get(...)` then raises `AttributeError` -/
  | jsonNonObject
  /-- the file is a JSON object -/
  | jsonObject (d : TokenData)
deriving DecidableEq

/-- The world the token functions act on: the object state, the cache file and
a counter of HTTP requests made to the token endpoint. -/
structure AuthWorld where
  st : TokenState
  file : CacheFile
  contacts : Nat
deriving DecidableEq

/-- `BingAds._load_tokens`: reads the cache file.  `FileNotFoundError` is
caught and logged; `json.JSONDecodeError` is caught, logged and the file is
removed (`os.remove`); on a JSON object the three fields are assigned from
`token_data.get`.  On valid JSON that is not an object, `token_data.get`
raises `AttributeError`, which no handler catches. -/
def _load_tokens (w : AuthWorld) : Except PyError Unit × AuthWorld :=
  match w.file with
  | CacheFile.missing => (Except.ok (), w)
  | CacheFile.invalidJson => (Except.ok (), ⟨w.st, CacheFile.missing, w.contacts⟩)
  | CacheFile.jsonNonObject =>
      (Except.error (PyError.attributeError "get"), w)
  | CacheFile.jsonObject d =>
      (Except.ok (),
        ⟨⟨d.access_token, d.refresh_token, d.expires_at.getD 0⟩, w.file, w.contacts⟩)

/-- `BingAds._save_tokens`: writes the three in-memory fields as a JSON object
to the cache file. -/
def _save_tokens (w : AuthWorld) : AuthWorld :=
  ⟨w.st,
   CacheFile.jsonObject ⟨w.st.access_token, w.st.refresh_token, some w.st.expires_at⟩,
   w.contacts⟩

/-- The JSON body of a token-endpoint response; each key may be absent
(`token_data["..."]` then raises `KeyError`, caught by the handler). -/
structure TokenRespJson where
  access_token : Option String
  refresh_token : Option String
  expires_in : Option Int
deriving DecidableEq

/-- Outcome of the HTTP POST to the token endpoint. -/
inductive ExchangeOutcome where
  /-- `requests.exceptions.RequestException` (connection error or 4xx/5xx or
  undecodable body): every handler branch logs and returns `None` -/
  | reqError
  /-- a 2xx response with the given JSON body -/
  | ok (r : TokenRespJson)
deriving DecidableEq

/-- `BingAds._refresh_access_token`: raises `ValueError` when the refresh
token is falsy, otherwise POSTs to the token endpoint; on success assigns the
three fields in order (a missing key raises `KeyError` mid-assignment, caught,
logged, returning `None`), persists via `_save_tokens` and returns the new
access token; on `RequestException` logs and returns `None`. -/
def _refresh_access_token (now : Int) (outc : ExchangeOutcome) (w : AuthWorld) :
    Except PyError (Option String) × AuthWorld :=
  if truthyStr w.st.refresh_token = false then
    (Except.error (PyError.valueError "Refresh token is missing. Obtain it first."), w)
  else
    let w1 : AuthWorld := ⟨w.st, w.file, w.contacts + 1⟩
    match outc with
    | ExchangeOutcome.reqError => (Except.ok none, w1)
    | ExchangeOutcome.ok r =>
      match r.access_token with
      | none => (Except.ok none, w1)
      | some a =>
        match r.refresh_token with
        | none =>
            (Except.ok none,
              ⟨⟨some a, w1.st.refresh_token, w1.st.expires_at⟩, w1.file, w1.contacts⟩)
        | some rt =>
          match r.expires_in with
          | none =>
              (Except.ok none, ⟨⟨some a, some rt, w1.st.expires_at⟩, w1.file, w1.contacts⟩)
          | some ein =>
              let w2 : AuthWorld := ⟨⟨some a, some rt, now + ein⟩, w1.file, w1.contacts⟩
              (Except.ok (some a), _save_tokens w2)

/-- `BingAds.get_access_token`: reload from the cache file, return the cached
token when it is truthy and expires more than 60 seconds after `now`,
otherwise refresh. -/
def get_access_token (now : Int) (outc : ExchangeOutcome) (w : AuthWorld) :
    Except PyError (Option String) × AuthWorld :=
  match _load_tokens w with
  | (Except.error e, w1) => (Except.error e, w1)
  | (Except.ok _, w1) =>
    if truthyStr w1.st.access_token = true ∧ w1.st.expires_at > now + 60 then
      (Except.ok w1.st.access_token, w1)
    else
      _refresh_access_token now outc w1

/-- `BingAds.get_headers`: returns `None` when no access token could be
obtained, otherwise the header dict (modelled by the bearer token it
carries). -/
def get_headers (now : Int) (outc : ExchangeOutcome) (w : AuthWorld) :
    Except PyError (Option String) × AuthWorld :=
  match get_access_token now outc w with
  | (Except.error e, w1) => (Except.error e, w1)
  | (Except.ok tok, w1) =>
    if truthyStr tok = true then (Except.ok tok, w1) else (Except.ok none, w1)

/-! ## Report request bodies

Each `*_performance_request_body` method builds one JSON object
`{"ReportRequest": {...}}`.  The inner object is modelled by `ReportRequest`;
its only inputs are the `CUSTOMER_ACCOUNT_ID` environment variable and, for
the campaign body, `datetime.today()` and `datetime.today() - timedelta(days=1)`
(passed here as explicit `today`/`yesterday` arguments). -/

/-- A `{"Day": d, "Month": m, "Year": y}` JSON date. -/
structure DateYMD where
  day : Nat
  month : Nat
  year : Nat
deriving DecidableEq

/-- The `"Time"` object: `CustomDateRangeStart` and `CustomDateRangeEnd`. -/
structure ReportTime where
  customDateRangeStart : DateYMD
  customDateRangeEnd : DateYMD
deriving DecidableEq

/-- The inner `"ReportRequest"` JSON object. -/
structure ReportRequest where
  format : String
  formatVersion : String
  reportName : String
  reportType : String
  returnOnlyCompleteData : Bool
  excludeReportFooter : Bool
  excludeReportHeader : Bool
  aggregation : String
  columns : List String
  /-- `Scope.AccountIds` -/
  accountIds : List String
  time : ReportTime
deriving DecidableEq

/-- `BingAds.campaign_performance_request_body`. -/
def campaign_performance_request_body (customer_account_id : String)
    (yesterday today : DateYMD) : ReportRequest :=
  { format := "Csv"
    formatVersion := "2.0"
    reportName := "Campaign Performance Request"
    reportType := "CampaignPerformanceReportRequest"
    returnOnlyCompleteData := false
    excludeReportFooter := true
    excludeReportHeader := true
    aggregation := "Daily"
    columns := ["AccountName", "AccountNumber", "AccountId", "TimePeriod",
      "CampaignStatus", "CampaignId", "CurrencyCode", "CampaignName",
      "AdDistribution", "Ctr", "AverageCpc", "Impressions", "Clicks",
      "Conversions", "Spend", "AveragePosition", "ConversionRate",
      "CostPerConversion", "LowQualityClicks", "LowQualityClicksPercent",
      "LowQualityImpressions", "LowQualityImpressionsPercent",
      "LowQualityConversions", "LowQualityConversionRate", "DeviceType",
      "DeviceOS"]
    accountIds := [customer_account_id]
    time := ⟨yesterday, today⟩ }

/-- `BingAds.account_performance_request_body`. -/
def account_performance_request_body (customer_account_id : String) :
    ReportRequest :=
  { format := "Csv"
    formatVersion := "2.0"
    reportName := "Account Performance Request"
    reportType := "AccountPerformanceReportRequest"
    returnOnlyCompleteData := false
    excludeReportFooter := true
    excludeReportHeader := true
    aggregation := "Daily"
    columns := ["AccountName", "AccountNumber", "AccountId", "TimePeriod",
      "CurrencyCode", "AdDistribution", "Ctr", "AverageCpc", "Impressions",
      "Clicks", "Spend", "Conversions", "AveragePosition", "ConversionRate",
      "CostPerConversion", "LowQualityClicks", "LowQualityClicksPercent",
      "LowQualityImpressions", "LowQualityImpressionsPercent",
      "LowQualityConversions", "LowQualityConversionRate", "DeviceType",
      "DeviceOS"]
    accountIds := [customer_account_id]
    time := ⟨⟨1, 1, 2024⟩, ⟨2, 6, 2025⟩⟩ }

/-- `BingAds.adgroup_performance_request_body`. -/
def adgroup_performance_request_body (customer_account_id : String) :
    ReportRequest :=
  { format := "Csv"
    formatVersion := "2.0"
    reportName := "Ad Group Performance Request"
    reportType := "AdGroupPerformanceReportRequest"
    returnOnlyCompleteData := false
    excludeReportFooter := true
    excludeReportHeader := true
    aggregation := "Daily"
    columns := ["AccountName", "AccountNumber", "AccountId", "TimePeriod",
      "Status", "CampaignName", "CampaignId", "AdGroupName", "AdGroupId",
      "AdGroupType", "CurrencyCode", "AdDistribution", "Ctr", "AverageCpc",
      "Impressions", "Clicks", "Spend", "Conversions", "AveragePosition",
      "ConversionRate", "CostPerConversion", "DeviceType", "DeviceOS"]
    accountIds := [customer_account_id]
    time := ⟨⟨1, 1, 2024⟩, ⟨2, 6, 2025⟩⟩ }

/-- `BingAds.ad_performance_request_body`. -/
def ad_performance_request_body (customer_account_id : String) :
    ReportRequest :=
  { format := "Csv"
    formatVersion := "2.0"
    reportName := "Ad Performance Request"
    reportType := "AdPerformanceReportRequest"
    returnOnlyCompleteData := false
    excludeReportFooter := true
    excludeReportHeader := true
    aggregation := "Daily"
    columns := ["AccountName", "AccountNumber", "AccountId", "TimePeriod",
      "CampaignName", "CampaignId", "AdGroupName", "AdId", "AdTitle",
      "AdDescription", "AdType", "AdStatus", "AdGroupId", "CurrencyCode",
      "AdDistribution", "Ctr", "AverageCpc", "Impressions", "Clicks",
      "Spend", "Conversions", "AveragePosition", "ConversionRate",
      "CostPerConversion", "DeviceType"]
    accountIds := [customer_account_id]
    time := ⟨⟨1, 1, 2024⟩, ⟨2, 6, 2025⟩⟩ }

/-- `BingAds.asset_performance_request_body`. -/
def asset_performance_request_body (customer_account_id : String) :
    ReportRequest :=
  { format := "Csv"
    formatVersion := "2.0"
    reportName := "Asset Performance Request"
    reportType := "AssetPerformanceReportRequest"
    returnOnlyCompleteData := false
    excludeReportFooter := true
    excludeReportHeader := true
    aggregation := "Daily"
    columns := ["AccountName", "AccountId", "TimePeriod", "CampaignName",
      "CampaignId", "AdGroupId", "AdGroupName", "AssetId", "AssetContent",
      "AssetType", "AssetSource", "Ctr", "Impressions", "Clicks", "Spend",
      "Conversions", "Revenue", "VideoViewsAt25Percent",
      "VideoViewsAt50Percent", "VideoViewsAt75Percent", "CompletedVideoViews",
      "VideoCompletionRate"]
    accountIds := [customer_account_id]
    time := ⟨⟨1, 1, 2024⟩, ⟨2, 6, 2025⟩⟩ }

/-- `BingAds.audience_performance_request_body`. -/
def audience_performance_request_body (customer_account_id : String) :
    ReportRequest :=
  { format := "Csv"
    formatVersion := "2.0"
    reportName := "Audience Performance Request"
    reportType := "AudiencePerformanceReportRequest"
    returnOnlyCompleteData := false
    excludeReportFooter := true
    excludeReportHeader := true
    aggregation := "Daily"
    columns := ["AccountName", "AccountNumber", "AccountId", "TimePeriod",
      "AccountStatus", "CampaignStatus", "CampaignName", "CampaignId",
      "AudienceType", "AdGroupName", "AdGroupId", "AudienceId",
      "AudienceName", "AssociationStatus", "BidAdjustment",
      "TargetingSetting", "Impressions", "Clicks", "Ctr", "AverageCpc",
      "Spend", "Conversions", "ReturnOnAdSpend", "Revenue",
      "RevenuePerConversion"]
    accountIds := [customer_account_id]
    time := ⟨⟨1, 1, 2024⟩, ⟨2, 6, 2025⟩⟩ }

/-- `BingAds.conversion_performance_request_body`. -/
def conversion_performance_request_body (customer_account_id : String) :
    ReportRequest :=
  { format := "Csv"
    formatVersion := "2.0"
    reportName := "Conversion Performance Request"
    reportType := "ConversionPerformanceReportRequest"
    returnOnlyCompleteData := false
    excludeReportFooter := true
    excludeReportHeader := true
    aggregation := "Daily"
    columns := ["AccountName", "AccountNumber", "AccountId", "TimePeriod",
      "CampaignName", "CampaignStatus", "CampaignId", "AdGroupName",
      "AdGroupId", "AdGroupStatus", "Keyword", "KeywordId", "Impressions",
      "Clicks", "Ctr", "Assists", "Conversions", "ConversionRate", "Spend",
      "Revenue"]
    accountIds := [customer_account_id]
    time := ⟨⟨1, 1, 2024⟩, ⟨2, 6, 2025⟩⟩ }

/-! ## Submit and poll -/

/-- JSON body of a 2xx submit response: the `ReportRequestId` key may be
absent, in which case `response.json()['ReportRequestId']` raises `KeyError`
(no handler catches `KeyError` in `submit_download_report`). -/
structure SubmitResp where
  reportRequestId : Option String
deriving DecidableEq

/-- Outcome of one reporting-API HTTP request. -/
inductive HttpResult (α : Type) where
  /-- `requests.exceptions.RequestException` (connection error, 4xx/5xx via
  `raise_for_status`, or an undecodable body from `response.json()`) -/
  | reqError
  /-- a 2xx response carrying the given body -/
  | ok (a : α)
deriving DecidableEq

/-- `BingAds.submit_download_report`: one POST; on success returns the
`ReportRequestId`; on `RequestException` every handler branch logs and
returns `None`; a 2xx body without the key raises `KeyError`.  The second
component counts the HTTP POSTs the call makes. -/
def submit_download_report (r : HttpResult SubmitResp) :
    Except PyError (Option String) × Nat :=
  match r with
  | HttpResult.reqError => (Except.ok none, 1)
  | HttpResult.ok resp =>
    match resp.reportRequestId with
    | some id => (Except.ok (some id), 1)
    | none => (Except.error (PyError.keyError "ReportRequestId"), 1)

/-- JSON body of a 2xx poll response:
`response['ReportRequestStatus']['Status']` (a missing key raises `KeyError`)
and `response['ReportRequestStatus']['ReportDownloadUrl']`. -/
structure PollJson where
  status : Option String
  reportDownloadUrl : Option String
deriving DecidableEq

/-- One iteration's outcome of the POST inside the poll loop. -/
inductive PollEvent where
  /-- `requests.exceptions.RequestException`: caught, logged, loop exits
  returning the (still empty) `download_url` -/
  | reqError
  /-- a 2xx response carrying the given body -/
  | resp (j : PollJson)
deriving DecidableEq

/-- `BingAds.poll_generate_report` as a function of the (possibly infinite)
sequence of poll responses, given here as the finite prefix the run consumes:
`none` means the trace ended before the loop did (the `while True` would keep
polling).  The result pairs the returned value (or escaping exception) with
the list of `sleep` durations performed, each the literal 30 seconds from
`sleep(30)`. -/
def poll_generate_report : List PollEvent → Option (Except PyError String × List Nat)
  | [] => none
  | PollEvent.reqError :: _ => some (Except.ok "", [])
  | PollEvent.resp j :: rest =>
    match j.status with
    | none => some (Except.error (PyError.keyError "Status"), [])
    | some s =>
      if s = "Success" then
        match j.reportDownloadUrl with
        | none => some (Except.error (PyError.keyError "ReportDownloadUrl"), [])
        | some u => some (Except.ok u, [])
      else
        (poll_generate_report rest).map (fun r => (r.1, 30 :: r.2))

/-! ## Download, unzip, BigQuery load -/

/-- `download_report` (inner function of `download_and_load_report`): streams
the report URL to `{report_type}.zip`; every exception is caught and `None`
returned.  `dl = false` models any exception during the GET or write. -/
def download_report (report_type : String) (dl : Bool) : Option String :=
  if dl then some (report_type ++ ".zip") else none

/-- Index of the last occurrence of `c` in `cs` (Python `str.rfind`, with
`none` for "not found"). -/
def rlastIdx (c : Char) (cs : List Char) : Option Nat :=
  (cs.reverse.findIdx? (fun x => x == c)).map (fun i => cs.length - 1 - i)

/-- Extension part of `os.path.splitext` (posixpath): the suffix from the last
dot, provided that dot lies after the last path separator and some character
of the basename before it is not a dot (so a leading-dot name such as `.csv`
has no extension).  `basenameStart` is `sepIndex + 1` in the CPython code. -/
def splitext_ext (p : String) : String :=
  let cs := p.toList
  let basenameStart : Nat :=
    match rlastIdx (Char.ofNat 47) cs with
    | none => 0
    | some s => s + 1
  match rlastIdx (Char.ofNat 46) cs with
  | none => ""
  | some di =>
    if decide (basenameStart ≤ di) &&
        (List.range di).any
          (fun k => decide (basenameStart ≤ k) && (cs.getD k (Char.ofNat 46) != Char.ofNat 46)) then
      String.mk (cs.drop di)
    else ""

/-- `unzip_file` (inner function of `download_and_load_report`): iterates the
archive members and extracts and returns the first one whose `splitext`
extension is `.csv`; returns `None` when no member matches or on any exception
(`none` archive models `BadZipFile`/`FileNotFoundError`/other). -/
def unzip_file (archive : Option (List String)) : Option String :=
  match archive with
  | none => none
  | some members => members.find? (fun m => splitext_ext m = ".csv")

/-- Outcome of the BigQuery load performed by `write_to_bq` on a non-empty
file. -/
inductive BqOutcome where
  /-- `load_table_from_file` raises: caught, logged, `False` returned -/
  | loadCallError
  /-- the job was created but `load_job.result()` raises: caught, logged,
  `False` returned -/
  | jobFailed
  /-- the load job completes -/
  | success
deriving DecidableEq

/-- `BingAds.write_to_bq`: a 0-byte file returns `True` immediately;
otherwise one load job is attempted.  The second component counts the load
jobs created. -/
def write_to_bq (size : Nat) (out : BqOutcome) : Bool × Nat :=
  if size = 0 then (true, 0)
  else
    match out with
    | BqOutcome.loadCallError => (false, 0)
    | BqOutcome.jobFailed => (false, 1)
    | BqOutcome.success => (true, 1)

/-! ## The per-report pipeline and `start` -/

/-- All external behaviour one run of `download_and_load_report` can observe. -/
structure PipelineEnv where
  /-- `time.time()` during the token check -/
  now : Int
  /-- outcome of the token-endpoint POST, should one happen -/
  exchange : ExchangeOutcome
  /-- token state, cache file and contact counter at entry -/
  auth : AuthWorld
  /-- outcome of the submit POST -/
  submit : HttpResult SubmitResp
  /-- the sequence of poll responses -/
  poll : List PollEvent
  /-- whether the report GET and file write succeed -/
  download : Bool
  /-- member names of the downloaded zip, `none` on a bad archive -/
  zipMembers : Option (List String)
  /-- size in bytes of the extracted csv file -/
  csvSize : Nat
  /-- outcome of the BigQuery load -/
  bq : BqOutcome

/-- Counts of the externally visible pipeline steps a run performed. -/
structure Actions where
  downloadCalls : Nat
  unzipCalls : Nat
  bqJobs : Nat
deriving DecidableEq

/-- `BingAds.download_and_load_report`: the five-step pipeline for one report
type.  `body` is always the dict `{"ReportRequest": {...}}`, which is truthy,
so the `not body or not table_id` guard reduces to the `table_id` check.
`none` models the poll loop not terminating; `Except.error` an exception
escaping to the caller. -/
def download_and_load_report (report_type : String) (_body : ReportRequest)
    (table_id : String) (env : PipelineEnv) :
    Option (Except PyError Bool × Actions) :=
  if table_id = "" then some (Except.ok false, ⟨0, 0, 0⟩)
  else
    match get_headers env.now env.exchange env.auth with
    | (Except.error e, _) => some (Except.error e, ⟨0, 0, 0⟩)
    | (Except.ok none, _) => some (Except.ok false, ⟨0, 0, 0⟩)
    | (Except.ok (some _), _) =>
      match submit_download_report env.submit with
      | (Except.error e, _) => some (Except.error e, ⟨0, 0, 0⟩)
      | (Except.ok none, _) => some (Except.ok false, ⟨0, 0, 0⟩)
      | (Except.ok (some _), _) =>
        match poll_generate_report env.poll with
        | none => none
        | some (Except.error e, _) => some (Except.error e, ⟨0, 0, 0⟩)
        | some (Except.ok url, _) =>
          if url = "" then some (Except.ok true, ⟨0, 0, 0⟩)
          else
            match download_report report_type env.download with
            | none => some (Except.ok false, ⟨1, 0, 0⟩)
            | some _file =>
              match unzip_file env.zipMembers with
              | none => some (Except.ok false, ⟨1, 1, 0⟩)
              | some _saved =>
                match write_to_bq env.csvSize env.bq with
                | (false, j) => some (Except.ok false, ⟨1, 1, j⟩)
                | (true, j) => some (Except.ok true, ⟨1, 1, j⟩)

/-- The seven report types of the `report_types` dict in `BingAds.start`. -/
inductive ReportType where
  | campaign
  | adgroup
  | account
  | ad
  | asset
  | audience
  | conversion
deriving DecidableEq

/-- The insertion (and hence iteration) order of the `report_types` dict. -/
def report_order : List ReportType :=
  [ReportType.campaign, ReportType.adgroup, ReportType.account, ReportType.ad,
   ReportType.asset, ReportType.audience, ReportType.conversion]

/-- The dict key naming each report type in `start`. -/
def report_key : ReportType → String
  | ReportType.campaign => "campaign"
  | ReportType.adgroup => "adgroup"
  | ReportType.account => "account"
  | ReportType.ad => "ad"
  | ReportType.asset => "asset"
  | ReportType.audience => "audience"
  | ReportType.conversion => "conversion"

/-- The environment variables `start` and the body constructors read. -/
structure EnvVars where
  project_name : String
  dataset : String
  campaign_performance_table : String
  adgroup_performance_table : String
  account_performance_table : String
  ad_performance_table : String
  asset_performance_table : String
  audience_performance_table : String
  conversion_performance_table : String
  customer_account_id : String

/-- The destination table id
`f"{PROJECT_NAME}.{DATASET}.{<TYPE>_PERFORMANCE_TABLE}"` built in `start` for
each report type. -/
def table_for (ev : EnvVars) : ReportType → String
  | ReportType.campaign =>
      ev.project_name ++ "." ++ ev.dataset ++ "." ++ ev.campaign_performance_table
  | ReportType.adgroup =>
      ev.project_name ++ "." ++ ev.dataset ++ "." ++ ev.adgroup_performance_table
  | ReportType.account =>
      ev.project_name ++ "." ++ ev.dataset ++ "." ++ ev.account_performance_table
  | ReportType.ad =>
      ev.project_name ++ "." ++ ev.dataset ++ "." ++ ev.ad_performance_table
  | ReportType.asset =>
      ev.project_name ++ "." ++ ev.dataset ++ "." ++ ev.asset_performance_table
  | ReportType.audience =>
      ev.project_name ++ "." ++ ev.dataset ++ "." ++ ev.audience_performance_table
  | ReportType.conversion =>
      ev.project_name ++ "." ++ ev.dataset ++ "." ++ ev.conversion_performance_table

/-- The request body `start` builds for each report type. -/
def body_for (ev : EnvVars) (yesterday today : DateYMD) : ReportType → ReportRequest
  | ReportType.campaign =>
      campaign_performance_request_body ev.customer_account_id yesterday today
  | ReportType.adgroup => adgroup_performance_request_body ev.customer_account_id
  | ReportType.account => account_performance_request_body ev.customer_account_id
  | ReportType.ad => ad_performance_request_body ev.customer_account_id
  | ReportType.asset => asset_performance_request_body ev.customer_account_id
  | ReportType.audience => audience_performance_request_body ev.customer_account_id
  | ReportType.conversion => conversion_performance_request_body ev.customer_account_id

/-- The loop of `BingAds.start` over a list of report types.  The returned
list records, in order, each processed type with the table id passed to
`download_and_load_report` and the call's outcome.  A `False` outcome is
ignored and processing continues; an escaping exception is caught by the
`except` wrapping the whole loop in `start`, so the remaining types are not
processed.  `none` models a run whose poll loop does not terminate. -/
def run_reports (ev : EnvVars) (yesterday today : DateYMD)
    (envs : ReportType → PipelineEnv) :
    List ReportType → Option (List (ReportType × String × Except PyError Bool))
  | [] => some []
  | t :: rest =>
    match download_and_load_report (report_key t) (body_for ev yesterday today t)
        (table_for ev t) (envs t) with
    | none => none
    | some (Except.error e, _) => some [(t, table_for ev t, Except.error e)]
    | some (Except.ok b, _) =>
      (run_reports ev yesterday today envs rest).map
        (fun l => (t, table_for ev t, Except.ok b) :: l)

/-- `BingAds.start`: build the seven bodies and tables, then run the pipeline
once per report type in the dict's insertion order. -/
def start (ev : EnvVars) (yesterday today : DateYMD)
    (envs : ReportType → PipelineEnv) :
    Option (List (ReportType × String × Except PyError Bool)) :=
  run_reports ev yesterday today envs report_order

/-! ## Theorems -/

/-- Claim C7: for every token state (access_token, refresh_token, expires_at),
running `_save_tokens` and then `_load_tokens` on the same cache file restores
exactly those three field values, whatever the in-memory state at load time. -/
theorem save_then_load_roundtrip (w : AuthWorld) (st2 : TokenState) (c2 : Nat) :
    (_load_tokens ⟨st2, (_save_tokens w).file, c2⟩).1 = Except.ok () ∧
    (_load_tokens ⟨st2, (_save_tokens w).file, c2⟩).2.st = w.st := by
  cases w with
  | mk st file contacts =>
    cases st with
    | mk a r e => exact ⟨rfl, rfl⟩

/-- Claim C9: for every file of size 0 bytes, `write_to_bq` returns `True`
and creates no load job, whatever the BigQuery outcome would have been. -/
theorem write_to_bq_empty_file (out : BqOutcome) : write_to_bq 0 out = (true, 0) := rfl

/-- Claim C4: `submit_download_report` makes exactly one HTTP POST per call;
on a 2xx response carrying a `ReportRequestId` it returns that id, and on any
request exception it returns `None` (after logging) with no second attempt. -/
theorem submit_download_report_spec (r : HttpResult SubmitResp) :
    (submit_download_report r).2 = 1 ∧
    (r = HttpResult.reqError → (submit_download_report r).1 = Except.ok none) ∧
    (∀ id, r = HttpResult.ok ⟨some id⟩ →
      (submit_download_report r).1 = Except.ok (some id)) := by
  refine ⟨?_, ?_, ?_⟩
  · rcases r with _ | ⟨_ | id⟩ <;> rfl
  · rintro rfl; rfl
  · rintro id rfl; rfl

/-- Witness for C4 at a concrete response. -/
theorem submit_download_report_spec_witness :
    (submit_download_report (HttpResult.ok ⟨some "rid"⟩)).2 = 1 ∧
    (submit_download_report (HttpResult.ok ⟨some "rid"⟩)).1 = Except.ok (some "rid") := by
  have h := submit_download_report_spec (HttpResult.ok ⟨some "rid"⟩)
  exact ⟨h.1, h.2.2 "rid" rfl⟩

/-- Claim C6: each of the seven request-body constructors yields one fixed
JSON object for its report type, with Format "Csv", Daily aggregation, a
column list independent of every input, and scope equal to the customer
account id; the campaign body ranges from yesterday to today while the other
six use the hard-coded range 1 January 2024 to 2 June 2025 (and, as their
argument lists show, do not depend on the current date at all). -/
theorem request_bodies_fixed (a a2 : String) (y y2 t t2 : DateYMD) :
    ((campaign_performance_request_body a y t).format = "Csv" ∧
     (campaign_performance_request_body a y t).aggregation = "Daily" ∧
     (campaign_performance_request_body a y t).reportType =
       "CampaignPerformanceReportRequest" ∧
     (campaign_performance_request_body a y t).accountIds = [a] ∧
     (campaign_performance_request_body a y t).time = ⟨y, t⟩ ∧
     (campaign_performance_request_body a y t).columns =
       (campaign_performance_request_body a2 y2 t2).columns) ∧
    ((account_performance_request_body a).format = "Csv" ∧
     (account_performance_request_body a).aggregation = "Daily" ∧
     (account_performance_request_body a).reportType =
       "AccountPerformanceReportRequest" ∧
     (account_performance_request_body a).accountIds = [a] ∧
     (account_performance_request_body a).time = ⟨⟨1, 1, 2024⟩, ⟨2, 6, 2025⟩⟩ ∧
     (account_performance_request_body a).columns =
       (account_performance_request_body a2).columns) ∧
    ((adgroup_performance_request_body a).format = "Csv" ∧
     (adgroup_performance_request_body a).aggregation = "Daily" ∧
     (adgroup_performance_request_body a).reportType =
       "AdGroupPerformanceReportRequest" ∧
     (adgroup_performance_request_body a).accountIds = [a] ∧
     (adgroup_performance_request_body a).time = ⟨⟨1, 1, 2024⟩, ⟨2, 6, 2025⟩⟩ ∧
     (adgroup_performance_request_body a).columns =
       (adgroup_performance_request_body a2).columns) ∧
    ((ad_performance_request_body a).format = "Csv" ∧
     (ad_performance_request_body a).aggregation = "Daily" ∧
     (ad_performance_request_body a).reportType = "AdPerformanceReportRequest" ∧
     (ad_performance_request_body a).accountIds = [a] ∧
     (ad_performance_request_body a).time = ⟨⟨1, 1, 2024⟩, ⟨2, 6, 2025⟩⟩ ∧
     (ad_performance_request_body a).columns =
       (ad_performance_request_body a2).columns) ∧
    ((asset_performance_request_body a).format = "Csv" ∧
     (asset_performance_request_body a).aggregation = "Daily" ∧
     (asset_performance_request_body a).reportType =
       "AssetPerformanceReportRequest" ∧
     (asset_performance_request_body a).accountIds = [a] ∧
     (asset_performance_request_body a).time = ⟨⟨1, 1, 2024⟩, ⟨2, 6, 2025⟩⟩ ∧
     (asset_performance_request_body a).columns =
       (asset_performance_request_body a2).columns) ∧
    ((audience_performance_request_body a).format = "Csv" ∧
     (audience_performance_request_body a).aggregation = "Daily" ∧
     (audience_performance_request_body a).reportType =
       "AudiencePerformanceReportRequest" ∧
     (audience_performance_request_body a).accountIds = [a] ∧
     (audience_performance_request_body a).time = ⟨⟨1, 1, 2024⟩, ⟨2, 6, 2025⟩⟩ ∧
     (audience_performance_request_body a).columns =
       (audience_performance_request_body a2).columns) ∧
    ((conversion_performance_request_body a).format = "Csv" ∧
     (conversion_performance_request_body a).aggregation = "Daily" ∧
     (conversion_performance_request_body a).reportType =
       "ConversionPerformanceReportRequest" ∧
     (conversion_performance_request_body a).accountIds = [a] ∧
     (conversion_performance_request_body a).time = ⟨⟨1, 1, 2024⟩, ⟨2, 6, 2025⟩⟩ ∧
     (conversion_performance_request_body a).columns =
       (conversion_performance_request_body a2).columns) :=
  ⟨⟨rfl, rfl, rfl, rfl, rfl, rfl⟩, ⟨rfl, rfl, rfl, rfl, rfl, rfl⟩,
   ⟨rfl, rfl, rfl, rfl, rfl, rfl⟩, ⟨rfl, rfl, rfl, rfl, rfl, rfl⟩,
   ⟨rfl, rfl, rfl, rfl, rfl, rfl⟩, ⟨rfl, rfl, rfl, rfl, rfl, rfl⟩,
   ⟨rfl, rfl, rfl, rfl, rfl, rfl⟩⟩

/-- Claim C2: `get_access_token` first reloads from the cache file; it returns
the cached access token without contacting the token endpoint exactly when
that token is truthy and its stored expiry exceeds `now + 60`; otherwise it
attempts the refresh exchange (one endpoint contact when a refresh token is
available), and a successful exchange replaces all three fields, sets
`expires_at := now + expires_in`, persists them to the cache file and returns
the new access token. -/
theorem get_access_token_spec (now : Int) (outc : ExchangeOutcome)
    (st0 : TokenState) (d : TokenData) (c0 : Nat) :
    (truthyStr d.access_token = true ∧ d.expires_at.getD 0 > now + 60 →
      get_access_token now outc ⟨st0, CacheFile.jsonObject d, c0⟩ =
        (Except.ok d.access_token,
         ⟨⟨d.access_token, d.refresh_token, d.expires_at.getD 0⟩,
          CacheFile.jsonObject d, c0⟩)) ∧
    (¬ (truthyStr d.access_token = true ∧ d.expires_at.getD 0 > now + 60) →
      (truthyStr d.refresh_token = false →
        (get_access_token now outc ⟨st0, CacheFile.jsonObject d, c0⟩).1 =
          Except.error
            (PyError.valueError "Refresh token is missing. Obtain it first.") ∧
        (get_access_token now outc ⟨st0, CacheFile.jsonObject d, c0⟩).2.contacts = c0) ∧
      (truthyStr d.refresh_token = true →
        (get_access_token now outc ⟨st0, CacheFile.jsonObject d, c0⟩).2.contacts = c0 + 1 ∧
        ∀ a rt ein, outc = ExchangeOutcome.ok ⟨some a, some rt, some ein⟩ →
          get_access_token now outc ⟨st0, CacheFile.jsonObject d, c0⟩ =
            (Except.ok (some a),
             ⟨⟨some a, some rt, now + ein⟩,
              CacheFile.jsonObject ⟨some a, some rt, some (now + ein)⟩,
              c0 + 1⟩))) := by
  constructor
  · intro h
    simp only [get_access_token, _load_tokens]
    rw [if_pos h]
  · intro h
    constructor
    · intro hr
      simp only [get_access_token, _load_tokens]
      rw [if_neg h]
      simp only [_refresh_access_token]
      rw [if_pos hr]
      exact ⟨rfl, rfl⟩
    · intro hr
      constructor
      · simp only [get_access_token, _load_tokens]
        rw [if_neg h]
        simp only [_refresh_access_token]
        rw [if_neg (by simp [hr])]
        cases outc with
        | reqError => rfl
        | ok r =>
          rcases r with ⟨_ | a, _ | rt, _ | ein⟩ <;> rfl
      · rintro a rt ein rfl
        simp only [get_access_token, _load_tokens]
        rw [if_neg h]
        simp only [_refresh_access_token]
        rw [if_neg (by simp [hr])]
        rfl

/-- Witness for C2: a concrete expired cache entry and a successful exchange
response; the new token is returned, stored and persisted. -/
theorem get_access_token_spec_witness :
    get_access_token 0 (ExchangeOutcome.ok ⟨some "newA", some "newR", some 100⟩)
        ⟨⟨some "", some "", 0⟩, CacheFile.jsonObject ⟨some "oldA", some "oldR", some 5⟩, 0⟩ =
      (Except.ok (some "newA"),
       ⟨⟨some "newA", some "newR", 100⟩,
        CacheFile.jsonObject ⟨some "newA", some "newR", some 100⟩, 1⟩) := by
  have h := get_access_token_spec 0
    (ExchangeOutcome.ok ⟨some "newA", some "newR", some 100⟩)
    ⟨some "", some "", 0⟩ ⟨some "oldA", some "oldR", some 5⟩ 0
  exact ((h.2 (by decide)).2 (by decide)).2 "newA" "newR" 100 rfl

/-- Claim C1 (amended): on any terminating run of the poll loop, every sleep
is the fixed 30 seconds and every response before the terminal one bears a
non-"Success" status (after which another check is issued); the loop ends
exactly on the first request exception (returning the empty string), on the
first "Success" response (returning its download URL, hence a non-empty URL is
returned only after observing "Success"), or on a response missing the
`Status` key or a "Success" response missing `ReportDownloadUrl`, in which
case a `KeyError` escapes. -/
theorem poll_generate_report_characterization (tr : List PollEvent) :
    ∀ out, poll_generate_report tr = some out →
      (∀ d ∈ out.2, d = 30) ∧
      (∀ k, k < out.2.length →
        ∃ s u, tr[k]? = some (PollEvent.resp ⟨some s, u⟩) ∧ s ≠ "Success") ∧
      ((tr[out.2.length]? = some PollEvent.reqError ∧ out.1 = Except.ok "") ∨
       (∃ u, tr[out.2.length]? = some (PollEvent.resp ⟨some "Success", some u⟩) ∧
         out.1 = Except.ok u) ∨
       (∃ uo, tr[out.2.length]? = some (PollEvent.resp ⟨none, uo⟩) ∧
         out.1 = Except.error (PyError.keyError "Status")) ∨
       (tr[out.2.length]? = some (PollEvent.resp ⟨some "Success", none⟩) ∧
         out.1 = Except.error (PyError.keyError "ReportDownloadUrl"))) := by
  induction tr with
  | nil =>
    intro out h
    simp [poll_generate_report] at h
  | cons e rest ih =>
    intro out h
    rcases e with _ | ⟨js, ju⟩
    · rw [show poll_generate_report (PollEvent.reqError :: rest) =
          some (Except.ok "", []) from rfl] at h
      obtain rfl := Option.some.inj h
      exact ⟨by simp, by simp, Or.inl ⟨by simp, rfl⟩⟩
    · rcases js with _ | s
      · rw [show poll_generate_report (PollEvent.resp ⟨none, ju⟩ :: rest) =
            some (Except.error (PyError.keyError "Status"), []) from rfl] at h
        obtain rfl := Option.some.inj h
        exact ⟨by simp, by simp, Or.inr (Or.inr (Or.inl ⟨ju, by simp, rfl⟩))⟩
      · by_cases hs : s = "Success"
        · subst hs
          rcases ju with _ | u
          · have hred : poll_generate_report
                (PollEvent.resp ⟨some "Success", none⟩ :: rest) =
                some (Except.error (PyError.keyError "ReportDownloadUrl"), []) := by
              simp [poll_generate_report]
            rw [hred] at h
            obtain rfl := Option.some.inj h
            exact ⟨by simp, by simp, Or.inr (Or.inr (Or.inr ⟨by simp, rfl⟩))⟩
          · have hred : poll_generate_report
                (PollEvent.resp ⟨some "Success", some u⟩ :: rest) =
                some (Except.ok u, []) := by
              simp [poll_generate_report]
            rw [hred] at h
            obtain rfl := Option.some.inj h
            exact ⟨by simp, by simp, Or.inr (Or.inl ⟨u, by simp, rfl⟩)⟩
        · have hred : poll_generate_report (PollEvent.resp ⟨some s, ju⟩ :: rest) =
              (poll_generate_report rest).map (fun r => (r.1, 30 :: r.2)) := by
            simp [poll_generate_report, hs]
          rw [hred] at h
          rcases Option.map_eq_some'.mp h with ⟨out2, hrest, rfl⟩
          obtain ⟨ih1, ih2, ih3⟩ := ih out2 hrest
          refine ⟨?_, ?_, ?_⟩
          · intro d hd
            rcases List.mem_cons.mp hd with rfl | hd2
            · rfl
            · exact ih1 d hd2
          · intro k hk
            cases k with
            | zero => exact ⟨s, ju, by simp, hs⟩
            | succ k2 =>
              have hk2 : k2 < out2.2.length := by
                have := hk
                simp only [List.length_cons] at this
                exact Nat.lt_of_succ_lt_succ this
              obtain ⟨s2, u2, hget, hne⟩ := ih2 k2 hk2
              exact ⟨s2, u2, by simpa using hget, hne⟩
          · simpa using ih3

/-- Counterexample for C1 as stated: on a 2xx poll response whose body lacks
the `Status` key, the loop ends with a propagating `KeyError`, although no
"Success" status was observed and no HTTP request exception occurred. -/
theorem poll_generate_report_counterexample :
    poll_generate_report [PollEvent.resp ⟨none, none⟩] =
      some (Except.error (PyError.keyError "Status"), []) ∧
    ([PollEvent.resp ⟨none, none⟩].all
      (fun e => match e with
        | PollEvent.reqError => false
        | PollEvent.resp j => j.status != some "Success")) = true :=
  ⟨rfl, rfl⟩

/-- Witness for C1 at a concrete trace: one "Pending" response (one 30-second
sleep) followed by a request exception; the loop returns the empty string. -/
theorem poll_generate_report_characterization_witness :
    (([PollEvent.resp ⟨some "Pending", none⟩, PollEvent.reqError] :
        List PollEvent)[(1 : Nat)]? = some PollEvent.reqError ∧
      (Except.ok "" : Except PyError String) = Except.ok "") ∨
    (∃ u, ([PollEvent.resp ⟨some "Pending", none⟩, PollEvent.reqError] :
        List PollEvent)[(1 : Nat)]? =
          some (PollEvent.resp ⟨some "Success", some u⟩) ∧
      (Except.ok "" : Except PyError String) = Except.ok u) ∨
    (∃ uo, ([PollEvent.resp ⟨some "Pending", none⟩, PollEvent.reqError] :
        List PollEvent)[(1 : Nat)]? = some (PollEvent.resp ⟨none, uo⟩) ∧
      (Except.ok "" : Except PyError String) =
        Except.error (PyError.keyError "Status")) ∨
    (([PollEvent.resp ⟨some "Pending", none⟩, PollEvent.reqError] :
        List PollEvent)[(1 : Nat)]? =
          some (PollEvent.resp ⟨some "Success", none⟩) ∧
      (Except.ok "" : Except PyError String) =
        Except.error (PyError.keyError "ReportDownloadUrl")) := by
  have h := poll_generate_report_characterization
    [PollEvent.resp ⟨some "Pending", none⟩, PollEvent.reqError]
    (Except.ok "", [30]) rfl
  exact h.2.2

/-- Helper: on a well-formed poll trace (every response bears a status key, and
Success responses bear a download URL), a terminating poll run never raises. -/
lemma poll_generate_report_wf (tr2 : List PollEvent)
    (hwf : ∀ j, PollEvent.resp j ∈ tr2 → j.status ≠ none ∧
      (j.status = some "Success" → j.reportDownloadUrl ≠ none)) :
    ∀ out, poll_generate_report tr2 = some out →
      ∃ u ds, out = (Except.ok u, ds) := by
  induction tr2 with
  | nil =>
    intro out h
    simp [poll_generate_report] at h
  | cons e rest ih =>
    intro out h
    rcases e with _ | ⟨js, ju⟩
    · rw [show poll_generate_report (PollEvent.reqError :: rest) =
          some (Except.ok "", []) from rfl] at h
      obtain rfl := Option.some.inj h
      exact ⟨"", [], rfl⟩
    · have hj := hwf ⟨js, ju⟩ (List.mem_cons_self _ _)
      rcases js with _ | s
      · exact absurd rfl hj.1
      · by_cases hs : s = "Success"
        · subst hs
          rcases ju with _ | u
          · exact absurd rfl (hj.2 rfl)
          · have hred : poll_generate_report
                (PollEvent.resp ⟨some "Success", some u⟩ :: rest) =
                some (Except.ok u, []) := by
              simp [poll_generate_report]
            rw [hred] at h
            obtain rfl := Option.some.inj h
            exact ⟨u, [], rfl⟩
        · have hred : poll_generate_report (PollEvent.resp ⟨some s, ju⟩ :: rest) =
              (poll_generate_report rest).map (fun r => (r.1, 30 :: r.2)) := by
            simp [poll_generate_report, hs]
          rw [hred] at h
          rcases Option.map_eq_some'.mp h with ⟨out2, hrest, rfl⟩
          obtain ⟨u, ds, rfl⟩ :=
            ih (fun j hjm => hwf j (List.mem_cons_of_mem _ hjm)) out2 hrest
          exact ⟨u, 30 :: ds, rfl⟩

/-- Helper: when the cache file is not valid-JSON-non-object and the post-load
refresh token is truthy, `get_access_token` cannot raise. -/
lemma get_access_token_no_error (now : Int) (outc : ExchangeOutcome) (w : AuthWorld)
    (hfile : w.file ≠ CacheFile.jsonNonObject)
    (hrefresh : truthyStr (_load_tokens w).2.st.refresh_token = true) :
    ∃ tok w2, get_access_token now outc w = (Except.ok tok, w2) := by
  rcases w with ⟨st, file, c⟩
  cases file with
  | jsonNonObject => exact absurd rfl hfile
  | missing =>
    simp [_load_tokens] at hrefresh
    simp only [get_access_token, _load_tokens]
    split
    · exact ⟨_, _, rfl⟩
    · simp only [_refresh_access_token]
      rw [if_neg (by simp [hrefresh])]
      rcases outc with _ | ⟨_ | a, _ | r2, _ | e2⟩ <;> exact ⟨_, _, rfl⟩
  | invalidJson =>
    simp [_load_tokens] at hrefresh
    simp only [get_access_token, _load_tokens]
    split
    · exact ⟨_, _, rfl⟩
    · simp only [_refresh_access_token]
      rw [if_neg (by simp [hrefresh])]
      rcases outc with _ | ⟨_ | a, _ | r2, _ | e2⟩ <;> exact ⟨_, _, rfl⟩
  | jsonObject d =>
    simp [_load_tokens] at hrefresh
    simp only [get_access_token, _load_tokens]
    split
    · exact ⟨_, _, rfl⟩
    · simp only [_refresh_access_token]
      rw [if_neg (by simp [hrefresh])]
      rcases outc with _ | ⟨_ | a, _ | r2, _ | e2⟩ <;> exact ⟨_, _, rfl⟩

/-- Helper: under the same conditions `get_headers` cannot raise. -/
lemma get_headers_no_error (now : Int) (outc : ExchangeOutcome) (w : AuthWorld)
    (hfile : w.file ≠ CacheFile.jsonNonObject)
    (hrefresh : truthyStr (_load_tokens w).2.st.refresh_token = true) :
    ∃ tok w2, get_headers now outc w = (Except.ok tok, w2) := by
  obtain ⟨tok, w2, hga⟩ := get_access_token_no_error now outc w hfile hrefresh
  simp only [get_headers, hga]
  by_cases htok : truthyStr tok = true
  · rw [if_pos htok]
    exact ⟨tok, w2, rfl⟩
  · rw [if_neg htok]
    exact ⟨none, w2, rfl⟩

/-- Claim C8: when the poll loop yields the empty URL (e.g. because a poll
request failed), `download_and_load_report` performs no download, unzip or
load step and still returns `True` — so `True` does not imply any data reached
the warehouse. -/
theorem download_and_load_report_empty_url (rt table : String)
    (body : ReportRequest) (env : PipelineEnv) (tok : String) (w2 : AuthWorld)
    (rid : String) (n : Nat) (ds : List Nat)
    (h1 : table ≠ "")
    (h2 : get_headers env.now env.exchange env.auth = (Except.ok (some tok), w2))
    (h4 : submit_download_report env.submit = (Except.ok (some rid), n))
    (h5 : poll_generate_report env.poll = some (Except.ok "", ds)) :
    download_and_load_report rt body table env = some (Except.ok true, ⟨0, 0, 0⟩) := by
  simp only [download_and_load_report]
  rw [if_neg h1]
  simp only [h2, h4, h5]
  rfl

/-- Witness for C8 at a concrete environment: valid cached token, successful
submit, then a request exception during the first poll. -/
theorem download_and_load_report_empty_url_witness :
    download_and_load_report "campaign" (account_performance_request_body "acct")
      "p.d.t"
      ⟨0, ExchangeOutcome.reqError,
       ⟨⟨some "tok", some "r", 1000⟩,
        CacheFile.jsonObject ⟨some "tok", some "r", some 1000⟩, 0⟩,
       HttpResult.ok ⟨some "rid"⟩, [PollEvent.reqError], true, none, 0,
       BqOutcome.success⟩ =
      some (Except.ok true, ⟨0, 0, 0⟩) := by
  exact download_and_load_report_empty_url "campaign" "p.d.t"
    (account_performance_request_body "acct") _ "tok" _ "rid" 1 []
    (by decide) rfl rfl rfl

/-- Counterexample for C3 as stated: with a valid cached token and a 2xx
submit response whose JSON lacks `ReportRequestId`, the `KeyError` raised in
`submit_download_report` propagates out of `download_and_load_report` instead
of being signalled by a return value. -/
theorem download_and_load_report_exception_counterexample :
    download_and_load_report "campaign"
      (campaign_performance_request_body "acct" ⟨1, 1, 2024⟩ ⟨2, 1, 2024⟩)
      "p.d.t"
      ⟨0, ExchangeOutcome.reqError,
       ⟨⟨some "tok", some "r", 1000⟩,
        CacheFile.jsonObject ⟨some "tok", some "r", some 1000⟩, 0⟩,
       HttpResult.ok ⟨none⟩, [], true, none, 0, BqOutcome.success⟩ =
      some (Except.error (PyError.keyError "ReportRequestId"), ⟨0, 0, 0⟩) := by
  rfl

/-- Claim C3 (amended): every HTTP request error in the pipeline is caught,
logged and signalled by a return value, so whenever every 2xx submit response
carries `ReportRequestId`, every 2xx poll response carries a status (and
Success ones a URL), the token cache is not valid-JSON-non-object and a
refresh token is available, `download_and_load_report` returns a Bool and
never propagates an exception; outside those conditions a
`KeyError`/`AttributeError`/`ValueError` can escape (see the
counterexample). -/
theorem download_and_load_report_amended (rt table : String)
    (body : ReportRequest) (env : PipelineEnv)
    (hfile : env.auth.file ≠ CacheFile.jsonNonObject)
    (hrefresh : truthyStr (_load_tokens env.auth).2.st.refresh_token = true)
    (hsubmit : ∀ r, env.submit = HttpResult.ok r → r.reportRequestId ≠ none)
    (hpoll : ∀ j, PollEvent.resp j ∈ env.poll → j.status ≠ none ∧
      (j.status = some "Success" → j.reportDownloadUrl ≠ none)) :
    ∀ out, download_and_load_report rt body table env = some out →
      out.1 = Except.ok true ∨ out.1 = Except.ok false := by
  intro out h
  simp only [download_and_load_report] at h
  by_cases ht : table = ""
  · rw [if_pos ht] at h
    obtain rfl := Option.some.inj h
    exact Or.inr rfl
  · rw [if_neg ht] at h
    obtain ⟨tok, w2, hgh⟩ := get_headers_no_error env.now env.exchange env.auth hfile hrefresh
    simp only [hgh] at h
    cases tok with
    | none =>
      obtain rfl := Option.some.inj h
      exact Or.inr rfl
    | some t =>
      cases hsub : env.submit with
      | reqError =>
        simp only [hsub, submit_download_report] at h
        obtain rfl := Option.some.inj h
        exact Or.inr rfl
      | ok resp =>
        rcases hr : resp.reportRequestId with _ | rid
        · exact absurd hr (hsubmit resp hsub)
        · simp only [hsub, submit_download_report, hr] at h
          rcases hp : poll_generate_report env.poll with _ | pout
          · rw [hp] at h
            simp at h
          · obtain ⟨u, ds, rfl⟩ := poll_generate_report_wf env.poll hpoll pout hp
            simp only [hp] at h
            by_cases hu : u = ""
            · rw [if_pos hu] at h
              obtain rfl := Option.some.inj h
              exact Or.inl rfl
            · rw [if_neg hu] at h
              cases hd : env.download with
              | false =>
                simp only [hd, download_report, if_neg] at h
                obtain rfl := Option.some.inj h
                exact Or.inr rfl
              | true =>
                simp only [hd, download_report, if_pos] at h
                rcases hz : unzip_file env.zipMembers with _ | path
                · simp only [hz] at h
                  obtain rfl := Option.some.inj h
                  exact Or.inr rfl
                · simp only [hz] at h
                  rcases hw : write_to_bq env.csvSize env.bq with ⟨b, jn⟩
                  simp only [hw] at h
                  cases b with
                  | false =>
                    obtain rfl := Option.some.inj h
                    exact Or.inr rfl
                  | true =>
                    obtain rfl := Option.some.inj h
                    exact Or.inl rfl

/-- Witness for the amended C3 at a concrete fully well-formed environment:
the pipeline runs to completion and returns `True`. -/
theorem download_and_load_report_amended_witness :
    download_and_load_report "account" (account_performance_request_body "acct")
      "p.d.t"
      ⟨0, ExchangeOutcome.reqError,
       ⟨⟨some "tok", some "r", 1000⟩,
        CacheFile.jsonObject ⟨some "tok", some "r", some 1000⟩, 0⟩,
       HttpResult.ok ⟨some "rid"⟩,
       [PollEvent.resp ⟨some "Success", some "http-u"⟩], true,
       some ["report.csv"], 0, BqOutcome.success⟩ =
      some (Except.ok true, ⟨1, 1, 0⟩) ∧
    ((Except.ok true : Except PyError Bool) = Except.ok true ∨
     (Except.ok true : Except PyError Bool) = Except.ok false) := by
  refine ⟨rfl, ?_⟩
  refine download_and_load_report_amended "account"
    "p.d.t" (account_performance_request_body "acct")
    ⟨0, ExchangeOutcome.reqError,
     ⟨⟨some "tok", some "r", 1000⟩,
      CacheFile.jsonObject ⟨some "tok", some "r", some 1000⟩, 0⟩,
     HttpResult.ok ⟨some "rid"⟩,
     [PollEvent.resp ⟨some "Success", some "http-u"⟩], true,
     some ["report.csv"], 0, BqOutcome.success⟩
    (by decide) (by decide) ?_ ?_ (Except.ok true, ⟨1, 1, 0⟩) rfl
  · intro r hr
    cases hr
    decide
  · intro j hj
    simp only [List.mem_singleton] at hj
    cases hj
    exact ⟨by decide, fun _ => by decide⟩

/-- Counterexample for C10 as stated: a cache file holding valid JSON that is
not an object (for example a JSON list) makes `_load_tokens` raise
`AttributeError` from `token_data.get`, so `_load_tokens` is not
exception-free. -/
theorem _load_tokens_counterexample :
    _load_tokens ⟨⟨some "", some "", 0⟩, CacheFile.jsonNonObject, 0⟩ =
      (Except.error (PyError.attributeError "get"),
       ⟨⟨some "", some "", 0⟩, CacheFile.jsonNonObject, 0⟩) := by
  rfl

/-- Claim C10 (amended): `_load_tokens` returns normally on a missing cache
file (logging and leaving the token fields at their prior values) and on an
undecodable cache file (logging, deleting the file, and leaving the in-memory
fields at their prior values, since the failed decode assigns nothing); it
raises only when the file holds valid JSON that is not an object, leaving
state and file untouched. -/
theorem _load_tokens_amended (w : AuthWorld) :
    (w.file = CacheFile.missing → _load_tokens w = (Except.ok (), w)) ∧
    (w.file = CacheFile.invalidJson →
      _load_tokens w = (Except.ok (), ⟨w.st, CacheFile.missing, w.contacts⟩)) ∧
    (∀ e w2, _load_tokens w = (Except.error e, w2) →
      w.file = CacheFile.jsonNonObject ∧ e = PyError.attributeError "get" ∧ w2 = w) := by
  rcases w with ⟨st, file, c⟩
  refine ⟨?_, ?_, ?_⟩
  · rintro hf
    simp only at hf
    subst hf
    rfl
  · rintro hf
    simp only at hf
    subst hf
    rfl
  · intro e w2 hload
    cases file with
    | missing => exact absurd hload (by simp [_load_tokens])
    | invalidJson => exact absurd hload (by simp [_load_tokens])
    | jsonObject d => exact absurd hload (by simp [_load_tokens])
    | jsonNonObject =>
      simp only [_load_tokens, Prod.mk.injEq] at hload
      obtain ⟨h1, h2⟩ := hload
      exact ⟨rfl, (Except.error.inj h1).symm, h2.symm⟩

/-- Witness for the amended C10: a missing cache file leaves a concrete state
untouched. -/
theorem _load_tokens_amended_witness :
    _load_tokens ⟨⟨some "a", some "b", 7⟩, CacheFile.missing, 2⟩ =
      (Except.ok (), ⟨⟨some "a", some "b", 7⟩, CacheFile.missing, 2⟩) := by
  exact (_load_tokens_amended ⟨⟨some "a", some "b", 7⟩, CacheFile.missing, 2⟩).1 rfl

/-- Counterexample for C5 as stated: when the campaign pipeline fails by a
propagating exception (a 2xx submit response without `ReportRequestId`), the
`except` wrapping the whole loop in `start` aborts it, so the remaining six
report types are never processed: only one entry is produced. -/
theorem start_counterexample :
    start ⟨"p", "d", "t1", "t2", "t3", "t4", "t5", "t6", "t7", "acct"⟩
      ⟨1, 1, 2024⟩ ⟨2, 1, 2024⟩
      (fun _ => ⟨0, ExchangeOutcome.reqError,
        ⟨⟨some "tok", some "r", 1000⟩,
         CacheFile.jsonObject ⟨some "tok", some "r", some 1000⟩, 0⟩,
        HttpResult.ok ⟨none⟩, [], true, none, 0, BqOutcome.success⟩) =
      some [(ReportType.campaign, "p.d.t1",
             Except.error (PyError.keyError "ReportRequestId"))] := by
  rfl

/-- Claim C5 (amended): `start` runs the five-step pipeline once per report
type, over exactly the seven types in the fixed order campaign, adgroup,
account, ad, asset, audience, conversion, each with its own table built from
per-type environment variables; when every per-type pipeline returns a value,
a `False` (failure) return for one type does not prevent the remaining types
from being processed — but a propagating exception in one type aborts the
rest (see the counterexample). -/
theorem start_amended (ev : EnvVars) (y td : DateYMD)
    (envs : ReportType → PipelineEnv) (res : ReportType → Bool)
    (acts : ReportType → Actions)
    (h : ∀ t, download_and_load_report (report_key t) (body_for ev y td t)
        (table_for ev t) (envs t) = some (Except.ok (res t), acts t)) :
    start ev y td envs =
      some (report_order.map (fun t => (t, table_for ev t, Except.ok (res t)))) := by
  simp only [start, report_order, run_reports, List.map,
    h ReportType.campaign, h ReportType.adgroup, h ReportType.account,
    h ReportType.ad, h ReportType.asset, h ReportType.audience,
    h ReportType.conversion]
  rfl

/-- Witness for the amended C5: a concrete environment where every type's
pipeline succeeds; all seven types are processed in order, each against its
own table. -/
theorem start_amended_witness :
    start ⟨"p", "d", "t1", "t2", "t3", "t4", "t5", "t6", "t7", "acct"⟩
      ⟨1, 1, 2024⟩ ⟨2, 1, 2024⟩
      (fun _ => ⟨0, ExchangeOutcome.reqError,
        ⟨⟨some "tok", some "r", 1000⟩,
         CacheFile.jsonObject ⟨some "tok", some "r", some 1000⟩, 0⟩,
        HttpResult.ok ⟨some "rid"⟩,
        [PollEvent.resp ⟨some "Success", some "http-u"⟩], true,
        some ["report.csv"], 0, BqOutcome.success⟩) =
      some (report_order.map (fun t =>
        (t, table_for ⟨"p", "d", "t1", "t2", "t3", "t4", "t5", "t6", "t7", "acct"⟩ t,
         Except.ok true))) := by
  exact start_amended ⟨"p", "d", "t1", "t2", "t3", "t4", "t5", "t6", "t7", "acct"⟩
    ⟨1, 1, 2024⟩ ⟨2, 1, 2024⟩ _ (fun _ => true) (fun _ => ⟨1, 1, 0⟩)
    (fun t => by cases t <;> rfl)

end MsAds
